import Mathlib

/-!
Verification development for the Productivity & Roster API (src/main.py,
src/schemas.py): a shallow embedding of the three create endpoints, the
three list endpoints and the helper functions they use, together with
theorems settling the behavioural claims about them.

The document store (`database.create_document` / `database.get_documents`)
is not part of the sources; its behaviour is modelled from the spec
(single insert returning a fresh generated id; filtered read).  Collections
are embedded as lists in insertion order and generated ids as naturals
drawn from a counter.
-/

namespace RosterApi

/-! ## String comparison

MongoDB compares two strings with `$lt` / `$gt` / `$lte` / `$gte` by
lexicographic order on their UTF-8 bytes, which coincides with
lexicographic order on code points.  We embed that order directly so that
it is kernel-computable. -/

def strLtAux : List Char → List Char → Bool
  | [], [] => false
  | [], _ :: _ => true
  | _ :: _, [] => false
  | a :: as, b :: bs =>
    if a.toNat < b.toNat then true
    else if b.toNat < a.toNat then false
    else strLtAux as bs

def strLt (a b : String) : Bool := strLtAux a.data b.data

def strLe (a b : String) : Bool := !(strLt b a)

/-! ## Python `datetime.fromisoformat`

`create_roster` parses the two payload datetimes with
`datetime.fromisoformat`.  We embed the documented grammar accepted
by that function (the format emitted by `datetime.isoformat`):
`YYYY-MM-DD` optionally followed by a one-character separator and
`HH[:MM[:SS[.fff[fff]]]]`, optionally followed by a UTC offset
`+HH:MM[:SS[.ffffff]]` or `-HH:MM[:SS[.ffffff]]`.  Field ranges are
checked exactly as the `datetime` constructor checks them; the offset is
normalised to microseconds and must be strictly between -24h and +24h. -/

structure PyDateTime where
  year : Nat
  month : Nat
  day : Nat
  hour : Nat
  minute : Nat
  second : Nat
  microsecond : Nat
  /-- UTC offset in microseconds; `none` for a naive datetime. -/
  tzOffset : Option Int
deriving DecidableEq, Repr

def takeDigitsAux : Nat → Nat → List Char → Option (Nat × List Char)
  | 0, acc, cs => some (acc, cs)
  | n + 1, acc, c :: cs =>
    if c.isDigit then takeDigitsAux n (acc * 10 + (c.toNat - 48)) cs else none
  | _ + 1, _, [] => none

def takeDigits (n : Nat) (cs : List Char) : Option (Nat × List Char) :=
  takeDigitsAux n 0 cs

def expectChar (c : Char) : List Char → Option (List Char)
  | d :: cs => if d = c then some cs else none
  | [] => none

def digitsToNat (l : List Char) : Nat :=
  l.foldl (fun a c => a * 10 + (c.toNat - 48)) 0

def isLeap (y : Nat) : Bool :=
  (y % 4 = 0 && y % 100 ≠ 0) || y % 400 = 0

def daysInMonth (y m : Nat) : Nat :=
  if m = 2 then (if isLeap y then 29 else 28)
  else if m = 4 ∨ m = 6 ∨ m = 9 ∨ m = 11 then 30
  else 31

def validDate (y mo da : Nat) : Bool :=
  1 ≤ y && y ≤ 9999 && 1 ≤ mo && mo ≤ 12 && 1 ≤ da && da ≤ daysInMonth y mo

def validTime (hh mi se : Nat) : Bool :=
  hh ≤ 23 && mi ≤ 59 && se ≤ 59

/-- Parse `HH[:MM[:SS[.fff[fff]]]]`; the fractional part must be exactly
3 or 6 digits.  Returns the components and the unconsumed suffix
(which `fromisoformat` requires to be empty or a UTC offset). -/
def parseTimeComps (cs : List Char) : Option (Nat × Nat × Nat × Nat × List Char) := do
  let (hh, cs1) ← takeDigits 2 cs
  match cs1 with
  | ':' :: cs2 => do
    let (mi, cs3) ← takeDigits 2 cs2
    match cs3 with
    | ':' :: cs4 => do
      let (se, cs5) ← takeDigits 2 cs4
      match cs5 with
      | '.' :: cs6 =>
        let sp := cs6.span (fun c => c.isDigit)
        if sp.1.length = 3 then some (hh, mi, se, 1000 * digitsToNat sp.1, sp.2)
        else if sp.1.length = 6 then some (hh, mi, se, digitsToNat sp.1, sp.2)
        else none
      | _ => some (hh, mi, se, 0, cs5)
    | _ => some (hh, mi, 0, 0, cs3)
  | _ => some (hh, 0, 0, 0, cs1)

/-- Parse a UTC offset `HH:MM`, `HH:MM:SS` or `HH:MM:SS.ffffff`
(the sign has already been consumed), requiring the whole remainder to
be consumed.  Returns the absolute offset in microseconds. -/
def parseTzComps (cs : List Char) : Option Nat := do
  let (oh, cs1) ← takeDigits 2 cs
  let cs2 ← expectChar ':' cs1
  let (om, cs3) ← takeDigits 2 cs2
  match cs3 with
  | [] => some (((oh * 3600 + om * 60) * 1000000 : Nat))
  | ':' :: cs4 => do
    let (os, cs5) ← takeDigits 2 cs4
    match cs5 with
    | [] => some ((oh * 3600 + om * 60 + os) * 1000000)
    | '.' :: cs6 => do
      let (us, cs7) ← takeDigits 6 cs6
      if cs7 = [] then some ((oh * 3600 + om * 60 + os) * 1000000 + us) else none
    | _ => none
  | _ => none

/-- Parse the optional trailing UTC offset.  A `timezone` accepts only
offsets strictly between -24 hours and +24 hours. -/
def parseTz : List Char → Option (Option Int)
  | [] => some none
  | c :: rest =>
    if c = '+' || c = '-' then
      match parseTzComps rest with
      | some total =>
        if total < 86400000000 then
          some (some (if c = '-' then -(total : Int) else (total : Int)))
        else none
      | none => none
    else none

/-- Embedding of `datetime.fromisoformat` (documented grammar: the format
emitted by `datetime.isoformat`).  `none` models a raised `ValueError`. -/
def fromisoformat (str : String) : Option PyDateTime := do
  let cs := str.data
  let (y, cs1) ← takeDigits 4 cs
  let cs2 ← expectChar '-' cs1
  let (mo, cs3) ← takeDigits 2 cs2
  let cs4 ← expectChar '-' cs3
  let (da, cs5) ← takeDigits 2 cs4
  if validDate y mo da then
    match cs5 with
    | [] => some ⟨y, mo, da, 0, 0, 0, 0, none⟩
    | _sep :: rest => do
      let (hh, mi, se, us, rest2) ← parseTimeComps rest
      if validTime hh mi se then do
        let off ← parseTz rest2
        some ⟨y, mo, da, hh, mi, se, us, off⟩
      else none
  else none

/-- Python `date.toordinal`: the proleptic Gregorian ordinal of the day. -/
def daysBeforeMonth (y m : Nat) : Nat :=
  (List.range (m - 1)).foldl (fun acc i => acc + daysInMonth y (i + 1)) 0

def toOrdinalDay (y m d : Nat) : Nat :=
  365 * (y - 1) + (y - 1) / 4 - (y - 1) / 100 + (y - 1) / 400 + daysBeforeMonth y m + d

/-- A datetime as a count of microseconds (with the UTC offset
subtracted for aware datetimes), the quantity Python effectively compares. -/
def PyDateTime.toMicros (t : PyDateTime) : Int :=
  ((toOrdinalDay t.year t.month t.day * 86400
      + t.hour * 3600 + t.minute * 60 + t.second) * 1000000
      + t.microsecond : Nat)
    - (t.tzOffset.getD 0)

/-- Python comparison `a <= b` on two datetimes: comparing a naive and an
aware datetime raises `TypeError` (modelled as `none`); otherwise both are
compared as instants (for two naive values this agrees with Python's
field-by-field comparison because `toMicros` is strictly monotone on
valid field tuples). -/
def pyCmpLe (a b : PyDateTime) : Option Bool :=
  match a.tzOffset, b.tzOffset with
  | none, some _ => none
  | some _, none => none
  | _, _ => some (decide (a.toMicros ≤ b.toMicros))

/-! ## Data model (src/schemas.py and the request models of src/main.py)

Stored documents carry the schema fields plus the generated `_id`.
Request payloads are the `CreateUser` / `CreateTasktype` / `CreateRoster`
models of src/main.py, taken after FastAPI's request parsing (so `email`
is the string produced by the `EmailStr` validator). -/

structure UserData where
  name : String
  email : String
  userAlias : Option String
  role : String
  manager_id : Option String
  geo : Option String
  timezone : Option String
  is_active : Bool
deriving DecidableEq, Repr

structure UserDoc extends UserData where
  _id : Nat
deriving DecidableEq, Repr

structure TasktypeData where
  name : String
  code : Option String
  description : Option String
  active : Bool
deriving DecidableEq, Repr

structure TasktypeDoc extends TasktypeData where
  _id : Nat
deriving DecidableEq, Repr

structure RosterData where
  user_id : String
  tasktype_id : String
  start_time : String
  end_time : String
  timezone : Option String
  notes : Option String
deriving DecidableEq, Repr

structure RosterDoc extends RosterData where
  _id : Nat
deriving DecidableEq, Repr

structure CreateUser where
  name : String
  email : String
  userAlias : Option String
  role : String
  manager_id : Option String
  geo : Option String
  timezone : Option String
deriving DecidableEq, Repr

structure CreateTasktype where
  name : String
  code : Option String
  description : Option String
  active : Bool
deriving DecidableEq, Repr

structure CreateRoster where
  user_id : String
  tasktype_id : String
  start_time : String
  end_time : String
  timezone : Option String
  notes : Option String
deriving DecidableEq, Repr

/-- The document store: one list per collection, in insertion order,
plus the counter supplying generated ids. -/
structure DB where
  user : List UserDoc
  tasktype : List TasktypeDoc
  roster : List RosterDoc
  nextId : Nat
deriving DecidableEq, Repr

/-- How an endpoint run ends: an `HTTPException` raised by the handler
(status + detail), or an exception that escapes the handler
(`ValueError`, `TypeError`, `pydantic.ValidationError`), which the
framework reports as an internal server error. -/
inductive ApiError where
  | http (status : Nat) (detail : String)
  | unhandled (exc : String)
deriving DecidableEq, Repr

/-- The HTTP status a client observes for each error: an `HTTPException`
carries its own status; an exception escaping the handler yields 500. -/
def statusOf : ApiError → Nat
  | .http s _ => s
  | .unhandled _ => 500

/-! ## Store helpers

Modelled from the spec: `database.create_document` and
`database.get_documents` are not in the sources; the spec describes them
as a single insert returning the generated identifier and a filtered
read.  Inserts append to the collection and draw the id from the
counter. -/

/-- Modelled from the spec: `create_document("user", data)` — single
insert of one document, id generated by the store. -/
def create_document_user (db : DB) (d : UserData) : DB :=
  { db with user := db.user ++ [{ toUserData := d, _id := db.nextId }], nextId := db.nextId + 1 }

/-- Modelled from the spec: `create_document("tasktype", data)`. -/
def create_document_tasktype (db : DB) (d : TasktypeData) : DB :=
  { db with tasktype := db.tasktype ++ [{ toTasktypeData := d, _id := db.nextId }], nextId := db.nextId + 1 }

/-- Modelled from the spec: `create_document("roster", data)`. -/
def create_document_roster (db : DB) (d : RosterData) : DB :=
  { db with roster := db.roster ++ [{ toRosterData := d, _id := db.nextId }], nextId := db.nextId + 1 }

/-! ## Helper `oid` (src/main.py lines 86-90) -/

/-- `ObjectId(id_str)` succeeds exactly on 24-character hex strings. -/
def isValidObjectId (s : String) : Bool :=
  s.length = 24 && s.data.all (fun c => c.isDigit || ('a' ≤ c && c ≤ 'f') || ('A' ≤ c && c ≤ 'F'))

/-- The `oid` helper: parse an id string into the store's native id type,
mapping a parse failure to HTTP 400 "Invalid id format".  (Defined in
src/main.py but not invoked by any list endpoint.) -/
def oid (s : String) : Except ApiError String :=
  if isValidObjectId s then .ok s else .error (.http 400 "Invalid id format")

/-! ## Create endpoints (src/main.py) -/

def validRole (r : String) : Bool :=
  r = "admin" || r = "manager" || r = "member"

/-- `UserSchema(**payload.model_dump())`: pydantic re-validates the
payload against the stored schema; the `Literal` annotation on `role`
raises a `pydantic.ValidationError` (uncaught in the handler) when the
role is outside {admin, manager, member}; `is_active` defaults to true. -/
def userDataOfValid (p : CreateUser) : UserData :=
  { name := p.name, email := p.email, userAlias := p.userAlias, role := p.role,
    manager_id := p.manager_id, geo := p.geo, timezone := p.timezone, is_active := true }

def userSchemaOfPayload (p : CreateUser) : Except ApiError UserData :=
  if validRole p.role then
    .ok (userDataOfValid p)
  else
    .error (.unhandled "pydantic.ValidationError")

/-- `TasktypeSchema(**payload.model_dump())`: same fields, no extra
constraint, so construction always succeeds. -/
def tasktypeSchemaOfPayload (p : CreateTasktype) : TasktypeData :=
  { name := p.name, code := p.code, description := p.description, active := p.active }

/-- `RosterSchema(**payload.model_dump())`: same fields, no extra
constraint. -/
def rosterSchemaOfPayload (p : CreateRoster) : RosterData :=
  { user_id := p.user_id, tasktype_id := p.tasktype_id, start_time := p.start_time,
    end_time := p.end_time, timezone := p.timezone, notes := p.notes }

/-- POST /api/users (src/main.py lines 94-102). -/
def create_user (db : DB) (p : CreateUser) : Except ApiError Nat × DB :=
  match userSchemaOfPayload p with
  | .error e => (.error e, db)
  | .ok data =>
    if (db.user.find? (fun u => decide (u.email = data.email))).isSome then
      (.error (.http 400 "Email already exists"), db)
    else
      (.ok db.nextId, create_document_user db data)

/-- The `$or` filter of `create_tasktype`: a document matches when its
name equals the candidate's name, or — when the candidate's `code` is
truthy (present and non-empty) — its code equals the candidate's code. -/
def tasktypeDupPred (p : CreateTasktype) (t : TasktypeDoc) : Bool :=
  decide (t.name = p.name) ||
    (match p.code with
     | some c => if c = "" then false else decide (t.code = some c)
     | none => false)

/-- POST /api/tasktypes (src/main.py lines 120-131). -/
def create_tasktype (db : DB) (p : CreateTasktype) : Except ApiError Nat × DB :=
  if (db.tasktype.find? (tasktypeDupPred p)).isSome then
    (.error (.http 400 "Task type with same name/code exists"), db)
  else
    (.ok db.nextId, create_document_tasktype db (tasktypeSchemaOfPayload p))

/-- The overlap filter of `create_roster`: same `user_id`, and
`start_time $lt candidate.end_time` with `end_time $gt
candidate.start_time`, compared as strings. -/
def rosterOverlapPred (p : CreateRoster) (r : RosterDoc) : Bool :=
  decide (r.user_id = p.user_id) && strLt r.start_time p.end_time && strLt p.start_time r.end_time

/-- POST /api/rosters (src/main.py lines 146-165): parse both datetimes
(an unparsable one raises `ValueError` out of the handler), reject a
non-positive range with HTTP 400, reject an overlap with HTTP 400,
otherwise insert. -/
def create_roster (db : DB) (p : CreateRoster) : Except ApiError Nat × DB :=
  match fromisoformat p.start_time with
  | none => (.error (.unhandled "ValueError"), db)
  | some s =>
    match fromisoformat p.end_time with
    | none => (.error (.unhandled "ValueError"), db)
    | some e =>
      match pyCmpLe e s with
      | none => (.error (.unhandled "TypeError"), db)
      | some true => (.error (.http 400 "End time must be after start time"), db)
      | some false =>
        if (db.roster.find? (rosterOverlapPred p)).isSome then
          (.error (.http 400 "Overlapping roster for this user"), db)
        else
          (.ok db.nextId, create_document_roster db (rosterSchemaOfPayload p))

/-! ## List endpoints (src/main.py)

Each handler builds a filter dict from its query parameters — adding a
key only when the parameter is truthy (`if role:` …), except
`list_tasktypes`, which tests `is not None` — and hands it to
`get_documents`.  Modelled from the spec: `get_documents` returns the
documents of the collection matching the filter, in store order. -/

def pyTruthy : Option String → Bool
  | none => false
  | some s => !(s = "")

/-- GET /api/users (src/main.py lines 105-116). -/
def list_users (db : DB) (role manager_id : Option String) : List UserDoc :=
  let filtRole := if pyTruthy role then role else none
  let filtMgr := if pyTruthy manager_id then manager_id else none
  db.user.filter (fun u =>
    (match filtRole with | some r => decide (u.role = r) | none => true) &&
    (match filtMgr with | some m => decide (u.manager_id = some m) | none => true))

/-- GET /api/tasktypes (src/main.py lines 134-142): the filter key is
added whenever the parameter is not None, so `active=false` filters. -/
def list_tasktypes (db : DB) (active : Option Bool) : List TasktypeDoc :=
  db.tasktype.filter (fun t =>
    match active with | some a => decide (t.active = a) | none => true)

/-- The day-window `$or` filter of `list_rosters`:
`start_time $lte date+"T23:59:59"` and `end_time $gte date+"T00:00:00"`. -/
def rosterDayPred (d : String) (r : RosterDoc) : Bool :=
  strLe r.start_time (d ++ "T23:59:59") && strLe (d ++ "T00:00:00") r.end_time

/-- GET /api/rosters (src/main.py lines 168-183). -/
def list_rosters (db : DB) (user_id date : Option String) : List RosterDoc :=
  let filtUid := if pyTruthy user_id then user_id else none
  let filtDate := if pyTruthy date then date else none
  db.roster.filter (fun r =>
    (match filtUid with | some u => decide (r.user_id = u) | none => true) &&
    (match filtDate with | some d => rosterDayPred d r | none => true))

/-! ## Concrete fixtures used by witnesses and counterexamples -/

def dbEmpty : DB := { user := [], tasktype := [], roster := [], nextId := 1 }

def rosterMorning : RosterDoc :=
  { user_id := "u1", tasktype_id := "t1", start_time := "2024-01-15T10:00:00",
    end_time := "2024-01-15T11:00:00", timezone := none, notes := none, _id := 1 }

def dbOneRoster : DB := { user := [], tasktype := [], roster := [rosterMorning], nextId := 2 }

def userAda : UserDoc :=
  { name := "Ada", email := "ada@example.com", userAlias := none, role := "member",
    manager_id := some "64b64b64b64b64b64b64b64b", geo := none, timezone := none,
    is_active := true, _id := 1 }

def dbOneUser : DB :=
  { user := [userAda], tasktype := [], roster := [rosterMorning], nextId := 3 }

def dbOneTasktype : DB :=
  { user := [], tasktype := [{ name := "Development", code := some "DEV", description := none,
                               active := true, _id := 1 }],
    roster := [], nextId := 2 }

/-! ## Theorems for the claims -/

/-- Claim C2: for every roster payload whose two datetimes parse with the
parsed end not strictly after the parsed start, creation fails with the
HTTP 400 validation error "End time must be after start time" and the
store is unchanged; the check runs on the parsed datetimes and precedes
the overlap query (the result does not depend on the stored rosters). -/
theorem claim2_inverted_range (db : DB) (p : CreateRoster) (s e : PyDateTime)
    (hs : fromisoformat p.start_time = some s)
    (he : fromisoformat p.end_time = some e)
    (hle : pyCmpLe e s = some true) :
    create_roster db p = (.error (.http 400 "End time must be after start time"), db) := by
  simp only [create_roster, hs, he, hle]

theorem claim2_witness :
    fromisoformat "2024-01-15T11:00:00" = some ⟨2024, 1, 15, 11, 0, 0, 0, none⟩ ∧
    fromisoformat "2024-01-15T10:00:00" = some ⟨2024, 1, 15, 10, 0, 0, 0, none⟩ ∧
    pyCmpLe ⟨2024, 1, 15, 10, 0, 0, 0, none⟩ ⟨2024, 1, 15, 11, 0, 0, 0, none⟩ = some true ∧
    create_roster dbOneRoster ⟨"u1", "t1", "2024-01-15T11:00:00", "2024-01-15T10:00:00", none, none⟩
      = (.error (.http 400 "End time must be after start time"), dbOneRoster) :=
  ⟨by decide, by decide, by decide,
    claim2_inverted_range dbOneRoster _ ⟨2024, 1, 15, 11, 0, 0, 0, none⟩
      ⟨2024, 1, 15, 10, 0, 0, 0, none⟩ (by decide) (by decide) (by decide)⟩

/-- Claim C7 (amended): an unparsable `start_time` or `end_time` makes
`datetime.fromisoformat` raise a `ValueError` that no handler catches, so
the request fails with an internal server error (HTTP 500), not an
HTTP 400 validation response; no document is written. -/
theorem claim7_unparsable_amended (db : DB) (p : CreateRoster)
    (h : fromisoformat p.start_time = none ∨ fromisoformat p.end_time = none) :
    create_roster db p = (.error (.unhandled "ValueError"), db) ∧
      statusOf (.unhandled "ValueError") = 500 := by
  refine ⟨?_, rfl⟩
  rcases h with h | h
  · simp only [create_roster, h]
  · cases hs : fromisoformat p.start_time with
    | none => simp only [create_roster, hs]
    | some s => simp only [create_roster, hs, h]

theorem claim7_witness :
    (fromisoformat "not-a-datetime" = none ∨ fromisoformat "2024-01-15T10:00:00" = none) ∧
    (create_roster dbEmpty ⟨"u1", "t1", "not-a-datetime", "2024-01-15T10:00:00", none, none⟩
        = (.error (.unhandled "ValueError"), dbEmpty) ∧
      statusOf (.unhandled "ValueError") = 500) :=
  ⟨Or.inl (by decide),
    claim7_unparsable_amended dbEmpty _ (Or.inl (by decide))⟩

/-- Claim C7 counterexample: at a concrete payload with an unparsable
`start_time` the handler ends with the uncaught `ValueError`, whose
reported status is 500 — not the HTTP 400 validation response the claim
asserts. -/
theorem claim7_counterexample :
    create_roster dbEmpty ⟨"u1", "t1", "2024/01/15 10:00", "2024-01-15T12:00:00", none, none⟩
      = (.error (.unhandled "ValueError"), dbEmpty) ∧
    statusOf (.unhandled "ValueError") ≠ 400 :=
  ⟨rfl, by decide⟩

/-- Claim C8 (amended): a payload whose `role` is outside
{admin, manager, member} passes the request model (whose `role` is a
plain string) and then makes `UserSchema(**payload.model_dump())` raise a
`pydantic.ValidationError` that the handler does not catch, so the
request fails with an internal server error (HTTP 500), not HTTP 400;
no user document is written. -/
theorem claim8_bad_role_amended (db : DB) (p : CreateUser)
    (h : validRole p.role = false) :
    create_user db p = (.error (.unhandled "pydantic.ValidationError"), db) ∧
      statusOf (.unhandled "pydantic.ValidationError") = 500 := by
  refine ⟨?_, rfl⟩
  simp [create_user, userSchemaOfPayload, h]

theorem claim8_witness :
    validRole "root" = false ∧
    (create_user dbEmpty ⟨"Eve", "eve@example.com", none, "root", none, none, none⟩
        = (.error (.unhandled "pydantic.ValidationError"), dbEmpty) ∧
      statusOf (.unhandled "pydantic.ValidationError") = 500) :=
  ⟨by decide, claim8_bad_role_amended dbEmpty _ (by decide)⟩

/-- Claim C8 counterexample: at a concrete payload with role "root" the
handler ends with the uncaught `pydantic.ValidationError`, reported as
status 500 — not the HTTP 400 validation response the claim asserts. -/
theorem claim8_counterexample :
    create_user dbEmpty ⟨"Eve", "eve@example.com", none, "root", none, none, none⟩
      = (.error (.unhandled "pydantic.ValidationError"), dbEmpty) ∧
    statusOf (.unhandled "pydantic.ValidationError") ≠ 400 :=
  ⟨rfl, by decide⟩

theorem rosterOverlapPred_iff (p : CreateRoster) (r : RosterDoc) :
    rosterOverlapPred p r = true ↔
      r.user_id = p.user_id ∧ strLt r.start_time p.end_time = true ∧
        strLt p.start_time r.end_time = true := by
  simp [rosterOverlapPred, Bool.and_eq_true, decide_eq_true_eq, and_assoc]

/-- Claim C1: for a payload that passes the creation-time range checks
(both datetimes parse and the parsed end is strictly after the parsed
start), creation fails with the HTTP 400 overlap error exactly when some
stored roster with the same `user_id` has `start_time` below the
candidate's `end_time` and `end_time` above the candidate's
`start_time` under string comparison; when no stored interval satisfies
that test — in particular one merely touching an endpoint — the roster
is inserted and the generated id returned. -/
theorem claim1_overlap_iff (db : DB) (p : CreateRoster) (s e : PyDateTime)
    (hs : fromisoformat p.start_time = some s)
    (he : fromisoformat p.end_time = some e)
    (hgt : pyCmpLe e s = some false) :
    ((create_roster db p).1 = .error (.http 400 "Overlapping roster for this user")
        ↔ ∃ r ∈ db.roster, r.user_id = p.user_id ∧ strLt r.start_time p.end_time = true ∧
            strLt p.start_time r.end_time = true)
      ∧ ((¬ ∃ r ∈ db.roster, r.user_id = p.user_id ∧ strLt r.start_time p.end_time = true ∧
            strLt p.start_time r.end_time = true)
          → create_roster db p
              = (.ok db.nextId, create_document_roster db (rosterSchemaOfPayload p))) := by
  have hiff : (db.roster.find? (rosterOverlapPred p)).isSome ↔
      ∃ r ∈ db.roster, r.user_id = p.user_id ∧ strLt r.start_time p.end_time = true ∧
        strLt p.start_time r.end_time = true := by
    rw [List.find?_isSome]
    constructor
    · rintro ⟨r, hr, hb⟩; exact ⟨r, hr, (rosterOverlapPred_iff p r).mp hb⟩
    · rintro ⟨r, hr, hx⟩; exact ⟨r, hr, (rosterOverlapPred_iff p r).mpr hx⟩
  constructor
  · by_cases hf : (db.roster.find? (rosterOverlapPred p)).isSome
    · simp only [create_roster, hs, he, hgt, hf, if_true]
      exact ⟨fun _ => hiff.mp hf, fun _ => trivial⟩
    · simp only [Bool.not_eq_true] at hf
      simp only [create_roster, hs, he, hgt, hf]
      simp only [Bool.false_eq_true, if_false]
      constructor
      · intro hcontra; cases hcontra
      · intro hx
        have := hiff.mpr hx
        rw [hf] at this
        cases this
  · intro hno
    have hf : ¬ (db.roster.find? (rosterOverlapPred p)).isSome := fun hh => hno (hiff.mp hh)
    simp only [Bool.not_eq_true] at hf
    simp only [create_roster, hs, he, hgt, hf]
    simp only [Bool.false_eq_true, if_false]

theorem claim1_witness :
    fromisoformat "2024-01-15T10:30:00" = some ⟨2024, 1, 15, 10, 30, 0, 0, none⟩ ∧
    fromisoformat "2024-01-15T12:00:00" = some ⟨2024, 1, 15, 12, 0, 0, 0, none⟩ ∧
    pyCmpLe ⟨2024, 1, 15, 12, 0, 0, 0, none⟩ ⟨2024, 1, 15, 10, 30, 0, 0, none⟩ = some false ∧
    (((create_roster dbOneRoster ⟨"u1", "t1", "2024-01-15T10:30:00", "2024-01-15T12:00:00", none, none⟩).1
          = .error (.http 400 "Overlapping roster for this user")
        ↔ ∃ r ∈ dbOneRoster.roster, r.user_id = "u1" ∧
            strLt r.start_time "2024-01-15T12:00:00" = true ∧
            strLt "2024-01-15T10:30:00" r.end_time = true)
      ∧ ((¬ ∃ r ∈ dbOneRoster.roster, r.user_id = "u1" ∧
            strLt r.start_time "2024-01-15T12:00:00" = true ∧
            strLt "2024-01-15T10:30:00" r.end_time = true)
          → create_roster dbOneRoster ⟨"u1", "t1", "2024-01-15T10:30:00", "2024-01-15T12:00:00", none, none⟩
              = (.ok dbOneRoster.nextId,
                  create_document_roster dbOneRoster
                    (rosterSchemaOfPayload ⟨"u1", "t1", "2024-01-15T10:30:00", "2024-01-15T12:00:00", none, none⟩)))) :=
  ⟨by decide, by decide, by decide,
    claim1_overlap_iff dbOneRoster _ ⟨2024, 1, 15, 10, 30, 0, 0, none⟩
      ⟨2024, 1, 15, 12, 0, 0, 0, none⟩ (by decide) (by decide) (by decide)⟩

/-- Claim C4: for a payload whose role passes the schema, creation fails
with the HTTP 400 duplicate-email error exactly when a stored user has
the identical email string; otherwise it succeeds, inserting the
document and returning the generated id, and two valid payloads with
distinct fresh emails created in sequence both succeed and receive
distinct ids. -/
theorem claim4_user_unique (db : DB) (p : CreateUser) (hrole : validRole p.role = true) :
    ((create_user db p).1 = .error (.http 400 "Email already exists")
        ↔ ∃ u ∈ db.user, u.email = p.email)
      ∧ ((¬ ∃ u ∈ db.user, u.email = p.email)
          → create_user db p = (.ok db.nextId, create_document_user db (userDataOfValid p)))
      ∧ (∀ q : CreateUser, validRole q.role = true → q.email ≠ p.email →
          (¬ ∃ u ∈ db.user, u.email = p.email) → (¬ ∃ u ∈ db.user, u.email = q.email) →
          create_user db p = (.ok db.nextId, create_document_user db (userDataOfValid p)) ∧
          create_user (create_document_user db (userDataOfValid p)) q
            = (.ok (db.nextId + 1),
                create_document_user (create_document_user db (userDataOfValid p)) (userDataOfValid q)) ∧
          db.nextId ≠ db.nextId + 1) := by
  have hpred : ∀ (l : List UserDoc) (em : String),
      (l.find? (fun u => decide (u.email = em))).isSome ↔ ∃ u ∈ l, u.email = em := by
    intro l em
    rw [List.find?_isSome]
    simp only [decide_eq_true_eq]
  have hsucc : ∀ (db' : DB) (p' : CreateUser), validRole p'.role = true →
      (¬ ∃ u ∈ db'.user, u.email = p'.email) →
      create_user db' p' = (.ok db'.nextId, create_document_user db' (userDataOfValid p')) := by
    intro db' p' hr hno
    have hf : ¬ (db'.user.find? (fun u => decide (u.email = p'.email))).isSome :=
      fun hh => hno ((hpred _ _).mp hh)
    simp only [create_user, userSchemaOfPayload, hr, if_true, userDataOfValid]
    simp only [Bool.not_eq_true] at hf
    simp [hf]
  refine ⟨?_, hsucc db p hrole, ?_⟩
  · by_cases hex : ∃ u ∈ db.user, u.email = p.email
    · have hf : (db.user.find? (fun u => decide (u.email = p.email))).isSome := (hpred _ _).mpr hex
      simp only [create_user, userSchemaOfPayload, hrole, if_true, userDataOfValid, hf]
      exact ⟨fun _ => hex, fun _ => trivial⟩
    · have hf : ¬ (db.user.find? (fun u => decide (u.email = p.email))).isSome :=
        fun hh => hex ((hpred _ _).mp hh)
      simp only [Bool.not_eq_true] at hf
      simp only [create_user, userSchemaOfPayload, hrole, if_true, userDataOfValid, hf]
      constructor
      · intro hcontra; cases hcontra
      · intro hx; exact absurd hx hex
  · intro q hq hne h1 h2
    have h2' : ¬ ∃ u ∈ (create_document_user db (userDataOfValid p)).user, u.email = q.email := by
      rintro ⟨u, hu, he⟩
      simp only [create_document_user, List.mem_append, List.mem_singleton] at hu
      rcases hu with hu | hu
      · exact h2 ⟨u, hu, he⟩
      · subst hu
        exact hne (he.symm)
    exact ⟨hsucc db p hrole h1, hsucc _ q hq h2', Nat.ne_of_lt (Nat.lt_succ_self _)⟩

theorem claim4_witness :
    validRole "member" = true ∧
    (((create_user dbOneUser ⟨"Bob", "bob@example.com", none, "member", none, none, none⟩).1
          = .error (.http 400 "Email already exists")
        ↔ ∃ u ∈ dbOneUser.user, u.email = "bob@example.com")
      ∧ ((¬ ∃ u ∈ dbOneUser.user, u.email = "bob@example.com")
          → create_user dbOneUser ⟨"Bob", "bob@example.com", none, "member", none, none, none⟩
              = (.ok dbOneUser.nextId,
                  create_document_user dbOneUser
                    (userDataOfValid ⟨"Bob", "bob@example.com", none, "member", none, none, none⟩)))
      ∧ (∀ q : CreateUser, validRole q.role = true → q.email ≠ "bob@example.com" →
          (¬ ∃ u ∈ dbOneUser.user, u.email = "bob@example.com") →
          (¬ ∃ u ∈ dbOneUser.user, u.email = q.email) →
          create_user dbOneUser ⟨"Bob", "bob@example.com", none, "member", none, none, none⟩
              = (.ok dbOneUser.nextId,
                  create_document_user dbOneUser
                    (userDataOfValid ⟨"Bob", "bob@example.com", none, "member", none, none, none⟩)) ∧
          create_user (create_document_user dbOneUser
                (userDataOfValid ⟨"Bob", "bob@example.com", none, "member", none, none, none⟩)) q
              = (.ok (dbOneUser.nextId + 1),
                  create_document_user
                    (create_document_user dbOneUser
                      (userDataOfValid ⟨"Bob", "bob@example.com", none, "member", none, none, none⟩))
                    (userDataOfValid q)) ∧
          dbOneUser.nextId ≠ dbOneUser.nextId + 1)) :=
  ⟨by decide, claim4_user_unique dbOneUser _ (by decide)⟩

theorem tasktypeDupPred_iff (p : CreateTasktype) (t : TasktypeDoc) :
    tasktypeDupPred p t = true ↔
      t.name = p.name ∨ ∃ c, p.code = some c ∧ c ≠ "" ∧ t.code = some c := by
  cases hc : p.code with
  | none => simp [tasktypeDupPred, hc]
  | some c =>
    by_cases hce : c = ""
    · subst hce
      simp [tasktypeDupPred, hc]
    · simp [tasktypeDupPred, hc, hce]

/-- Claim C5: task-type creation fails with the HTTP 400 duplicate error
exactly when some stored task type has the same name, or — when the
candidate's code is present and non-empty — the same code, either match
alone sufficing; otherwise the document is inserted and the generated id
returned. -/
theorem claim5_tasktype_dup (db : DB) (p : CreateTasktype) :
    ((create_tasktype db p).1 = .error (.http 400 "Task type with same name/code exists")
        ↔ ∃ t ∈ db.tasktype, t.name = p.name ∨ ∃ c, p.code = some c ∧ c ≠ "" ∧ t.code = some c)
      ∧ ((¬ ∃ t ∈ db.tasktype, t.name = p.name ∨ ∃ c, p.code = some c ∧ c ≠ "" ∧ t.code = some c)
          → create_tasktype db p
              = (.ok db.nextId, create_document_tasktype db (tasktypeSchemaOfPayload p))) := by
  have hiff : (db.tasktype.find? (tasktypeDupPred p)).isSome ↔
      ∃ t ∈ db.tasktype, t.name = p.name ∨ ∃ c, p.code = some c ∧ c ≠ "" ∧ t.code = some c := by
    rw [List.find?_isSome]
    constructor
    · rintro ⟨t, ht, hb⟩; exact ⟨t, ht, (tasktypeDupPred_iff p t).mp hb⟩
    · rintro ⟨t, ht, hx⟩; exact ⟨t, ht, (tasktypeDupPred_iff p t).mpr hx⟩
  constructor
  · by_cases hf : (db.tasktype.find? (tasktypeDupPred p)).isSome
    · simp only [create_tasktype, hf, if_true]
      exact ⟨fun _ => hiff.mp hf, fun _ => trivial⟩
    · simp only [Bool.not_eq_true] at hf
      simp only [create_tasktype, hf]
      simp only [Bool.false_eq_true, if_false]
      constructor
      · intro hcontra; cases hcontra
      · intro hx
        have := hiff.mpr hx
        rw [hf] at this
        cases this
  · intro hno
    have hf : ¬ (db.tasktype.find? (tasktypeDupPred p)).isSome := fun hh => hno (hiff.mp hh)
    simp only [Bool.not_eq_true] at hf
    simp only [create_tasktype, hf]
    simp only [Bool.false_eq_true, if_false]

theorem claim5_witness :
    ((create_tasktype dbOneTasktype ⟨"Development", none, none, true⟩).1
        = .error (.http 400 "Task type with same name/code exists")
      ↔ ∃ t ∈ dbOneTasktype.tasktype, t.name = "Development" ∨
          ∃ c, (none : Option String) = some c ∧ c ≠ "" ∧ t.code = some c)
    ∧ ((¬ ∃ t ∈ dbOneTasktype.tasktype, t.name = "Development" ∨
          ∃ c, (none : Option String) = some c ∧ c ≠ "" ∧ t.code = some c)
        → create_tasktype dbOneTasktype ⟨"Development", none, none, true⟩
            = (.ok dbOneTasktype.nextId,
                create_document_tasktype dbOneTasktype
                  (tasktypeSchemaOfPayload ⟨"Development", none, none, true⟩))) :=
  claim5_tasktype_dup dbOneTasktype ⟨"Development", none, none, true⟩

/-- Claim C3: with a non-empty `date` parameter, listing rosters returns
exactly the stored records whose `start_time` is at most
`date ++ "T23:59:59"` and whose `end_time` is at least
`date ++ "T00:00:00"` under string comparison; a (non-empty) `user_id`
parameter additionally requires equality of the stored `user_id`,
both conditions combining conjunctively. -/
theorem claim3_date_window (db : DB) (uid : Option String) (d : String) (r : RosterDoc)
    (hd : d ≠ "") (hu : ∀ u, uid = some u → u ≠ "") :
    r ∈ list_rosters db uid (some d) ↔
      r ∈ db.roster ∧ (∀ u, uid = some u → r.user_id = u) ∧
        strLe r.start_time (d ++ "T23:59:59") = true ∧
        strLe (d ++ "T00:00:00") r.end_time = true := by
  cases uid with
  | none =>
    simp [list_rosters, pyTruthy, hd, List.mem_filter, rosterDayPred, Bool.and_eq_true, and_assoc]
  | some u =>
    have hu' : u ≠ "" := hu u rfl
    simp [list_rosters, pyTruthy, hd, hu', List.mem_filter, rosterDayPred, Bool.and_eq_true,
      decide_eq_true_eq, and_assoc]

theorem claim3_witness :
    ("2024-01-15" : String) ≠ "" ∧
    (rosterMorning ∈ list_rosters dbOneRoster none (some "2024-01-15") ↔
      rosterMorning ∈ dbOneRoster.roster ∧
        (∀ u, (none : Option String) = some u → rosterMorning.user_id = u) ∧
        strLe rosterMorning.start_time ("2024-01-15" ++ "T23:59:59") = true ∧
        strLe ("2024-01-15" ++ "T00:00:00") rosterMorning.end_time = true) :=
  ⟨by decide,
    claim3_date_window dbOneRoster none "2024-01-15" rosterMorning (by decide)
      (fun u h => by cases h)⟩

/-- Claim C6: each create endpoint is atomic — the request either fails
with an error leaving the store exactly as it was, or succeeds returning
the generated id with precisely one document appended to the
corresponding collection (the other collections untouched). -/
theorem claim6_atomic (db : DB) (pu : CreateUser) (pt : CreateTasktype) (pr : CreateRoster) :
    ((∃ err, create_user db pu = (.error err, db)) ∨
        (∃ d, create_user db pu
            = (.ok db.nextId,
                { db with
                  user := db.user ++ [{ toUserData := d, _id := db.nextId }],
                  nextId := db.nextId + 1 }))) ∧
      ((∃ err, create_tasktype db pt = (.error err, db)) ∨
        (∃ d, create_tasktype db pt
            = (.ok db.nextId,
                { db with
                  tasktype := db.tasktype ++ [{ toTasktypeData := d, _id := db.nextId }],
                  nextId := db.nextId + 1 }))) ∧
      ((∃ err, create_roster db pr = (.error err, db)) ∨
        (∃ d, create_roster db pr
            = (.ok db.nextId,
                { db with
                  roster := db.roster ++ [{ toRosterData := d, _id := db.nextId }],
                  nextId := db.nextId + 1 }))) := by
  refine ⟨?_, ?_, ?_⟩
  · cases h : userSchemaOfPayload pu with
    | error e => exact Or.inl ⟨e, by simp [create_user, h]⟩
    | ok data =>
      by_cases hf : (db.user.find? (fun u => decide (u.email = data.email))).isSome
      · exact Or.inl ⟨.http 400 "Email already exists", by simp [create_user, h, hf]⟩
      · refine Or.inr ⟨data, ?_⟩
        simp only [Bool.not_eq_true] at hf
        simp [create_user, h, hf, create_document_user]
  · by_cases hf : (db.tasktype.find? (tasktypeDupPred pt)).isSome
    · exact Or.inl ⟨.http 400 "Task type with same name/code exists", by simp [create_tasktype, hf]⟩
    · refine Or.inr ⟨tasktypeSchemaOfPayload pt, ?_⟩
      simp only [Bool.not_eq_true] at hf
      simp [create_tasktype, hf, create_document_tasktype]
  · cases h1 : fromisoformat pr.start_time with
    | none => exact Or.inl ⟨.unhandled "ValueError", by simp [create_roster, h1]⟩
    | some s =>
      cases h2 : fromisoformat pr.end_time with
      | none => exact Or.inl ⟨.unhandled "ValueError", by simp [create_roster, h1, h2]⟩
      | some e =>
        cases h3 : pyCmpLe e s with
        | none => exact Or.inl ⟨.unhandled "TypeError", by simp [create_roster, h1, h2, h3]⟩
        | some b =>
          cases b with
          | true =>
            exact Or.inl ⟨.http 400 "End time must be after start time",
              by simp [create_roster, h1, h2, h3]⟩
          | false =>
            by_cases hf : (db.roster.find? (rosterOverlapPred pr)).isSome
            · exact Or.inl ⟨.http 400 "Overlapping roster for this user",
                by simp [create_roster, h1, h2, h3, hf]⟩
            · refine Or.inr ⟨rosterSchemaOfPayload pr, ?_⟩
              simp only [Bool.not_eq_true] at hf
              simp [create_roster, h1, h2, h3, hf, create_document_roster]

/-- Claim C9 (amended): no list endpoint parses its id-valued filter
parameters into the store's native id type — the `oid` helper that would
answer HTTP 400 "Invalid id format" exists but is not invoked there — so
a syntactically invalid id is used as a plain string-equality filter and
the request succeeds, returning the (typically empty) list of exact
matches. -/
theorem claim9_no_id_parsing_amended (db : DB) (m : String) (hm : m ≠ "") :
    list_users db none (some m) = db.user.filter (fun u => decide (u.manager_id = some m)) ∧
    list_rosters db (some m) none = db.roster.filter (fun r => decide (r.user_id = m)) ∧
    (isValidObjectId m = false → oid m = .error (.http 400 "Invalid id format")) := by
  refine ⟨?_, ?_, ?_⟩
  · simp [list_users, pyTruthy, hm]
  · simp [list_rosters, pyTruthy, hm]
  · intro h
    simp [oid, h]

theorem claim9_witness :
    ("not-an-objectid" : String) ≠ "" ∧
    (list_users dbOneUser none (some "not-an-objectid")
        = dbOneUser.user.filter (fun u => decide (u.manager_id = some "not-an-objectid")) ∧
      list_rosters dbOneUser (some "not-an-objectid") none
        = dbOneUser.roster.filter (fun r => decide (r.user_id = "not-an-objectid")) ∧
      (isValidObjectId "not-an-objectid" = false
        → oid "not-an-objectid" = .error (.http 400 "Invalid id format"))) :=
  ⟨by decide, claim9_no_id_parsing_amended dbOneUser "not-an-objectid" (by decide)⟩

/-- Claim C9 counterexample: "not-an-objectid" is not parsable as a
native store id, yet listing users filtered by it (and rosters likewise)
does not fail with HTTP 400 — the request completes normally with an
empty result list. -/
theorem claim9_counterexample :
    isValidObjectId "not-an-objectid" = false ∧
    list_users dbOneUser none (some "not-an-objectid") = [] ∧
    list_rosters dbOneUser (some "not-an-objectid") none = [] :=
  ⟨by decide, by decide, by decide⟩

/-- Claim C10: an empty-string query parameter is falsy in the
`if param:` guards of `list_users` and `list_rosters`, so it is treated
as absent (the full collection when no other filter applies); by
contrast `list_tasktypes` tests `is not None`, so `active=false`
genuinely filters to the task types with `active == false` while an
omitted parameter returns everything. -/
theorem claim10_empty_params (db : DB) :
    list_users db (some "") none = list_users db none none ∧
    list_users db none (some "") = list_users db none none ∧
    list_users db none none = db.user ∧
    list_rosters db (some "") none = list_rosters db none none ∧
    list_rosters db none none = db.roster ∧
    list_tasktypes db (some false) = db.tasktype.filter (fun t => decide (t.active = false)) ∧
    list_tasktypes db none = db.tasktype := by
  refine ⟨?_, ?_, ?_, ?_, ?_, rfl, ?_⟩
  · simp [list_users, pyTruthy]
  · simp [list_users, pyTruthy]
  · simp [list_users]
  · simp [list_rosters, pyTruthy]
  · simp [list_rosters]
  · simp [list_tasktypes]

end RosterApi
